import Mathlib

/-!
A shallow embedding of `process.py` from the `tts_data_tools` repository.

The script is an orchestration layer: it resolves file-id lists, optionally
validates that a label directory and a waveform directory resolve to the same
ids, and runs one of three per-id processing modes (combined, label-only,
waveform-only), writing output artifacts per id.

The embedding models:
* Python string operations (`endswith`, slicing `x[:-4]`, `os.path.join`)
  over `List Char` so that they evaluate inside the kernel;
* the filesystem and the opaque collaborator modules (`label_io`,
  `feature_io`, `file_io`) as an abstract environment `Env`; the collaborator
  operations are fallible (`Except`), mirroring Python exceptions;
* an execution as a trace of `Event`s (file reads and file writes) paired
  with an optional uncaught error, so that claims about "which files are
  written, in which order, before/after which failure" are statements about
  the trace.
-/

/-- Python `s.endswith(t)`: `t` is a suffix of `s` (character-wise). -/
def pyEndsWith (s t : String) : Bool := decide (t.data <:+ s.data)

/-- Python `s.startswith(t)`: `t` is a prefix of `s` (character-wise). -/
def pyStartsWith (s t : String) : Bool := decide (t.data <+: s.data)

/-- Python `x[:-len('.lab')]`, i.e. `x[:-4]`: all characters of `x` but the
last four (the empty string when `x` has at most four characters). -/
def pyStripLab (s : String) : String := String.mk (s.data.take (s.data.length - 4))

/-- Split a character list at newline characters, accumulating the current
line in reverse.  Helper for `pySplitLines`. -/
def splitLinesAux : List Char → List Char → List String
  | [], acc => [String.mk acc.reverse]
  | c :: cs, acc =>
    if c = '\n' then String.mk acc.reverse :: splitLinesAux cs []
    else splitLinesAux cs (c :: acc)

/-- Split a string into its newline-delimited pieces
(`pySplitLines "x\ny\n" = ["x", "y", ""]`). -/
def pySplitLines (s : String) : List String := splitLinesAux s.data []

/-- POSIX `os.path.join(a, b)`: `b` if `b` is absolute; otherwise `a ++ b`
when `a` is empty or already ends with the separator, else `a ++ "/" ++ b`. -/
def pathJoin (a b : String) : String :=
  if pyStartsWith b "/" then b
  else if a = "" ∨ pyEndsWith a "/" then a ++ b
  else a ++ "/" ++ b

/-- Opaque binary payloads (binarised labels, vocoder feature sequences). -/
abbrev Blob := List Nat

/-- The opaque parsed label object produced by `label_io.Label(path, state_level)`.
Its two operations may raise, modelled by `Except`. -/
structure Label where
  binarise : String → Except String Blob
  count_frames : Except String Nat

/-- The opaque parsed waveform object produced by `feature_io.Wav(path)`.
`extract_features` returns the `(f0, mgc, bap)` triple and may raise. -/
structure Wav where
  extract_features : Except String (Blob × Blob × Blob)

/-- The environment: the filesystem as seen by the script, together with the
opaque collaborator constructors.  `listdir` is `os.listdir`; `fileContents`
gives the text of a file; `loadLabel`/`loadWav` are the `Label`/`Wav`
constructors (which read the file at the given path and may raise);
`writeOk p` tells whether a write to path `p` succeeds. -/
structure Env where
  listdir : String → List String
  fileContents : String → String
  loadLabel : String → Bool → Except String Label
  loadWav : String → Except String Wav
  writeOk : String → Bool

/-- Modelled from the spec: `label_io.load_txt` is not under `src/`; the spec
says it reads the file as newline-delimited text, one id per line, preserving
file order (`load_txt(path) -> list<str>`).  A single trailing empty line is
not an id. -/
def load_txt (env : Env) (path : String) : List String :=
  let parts := pySplitLines (env.fileContents path)
  if parts.getLast? = some "" then parts.dropLast else parts

/-- The value returned by `get_file_ids`: either the lazy `map`-over-`filter`
iterator built from a directory listing (the `id_list is None` branch), or
the plain Python list returned by `load_txt`.  Python `filter`/`map` objects
define no `__eq__`, so `!=` between the results of two distinct calls falls
back to identity comparison; `pyNe` records exactly that. -/
inductive FileIds
  | pyiter (ids : List String)
  | pylist (ids : List String)
deriving DecidableEq

/-- The sequence of ids obtained by iterating the value (Python `for x in v`). -/
def FileIds.toList : FileIds → List String
  | pyiter ids => ids
  | pylist ids => ids

/-- Python `!=` between the results of two distinct `get_file_ids` calls:
two lists compare element-for-element; any comparison involving a lazy
`filter`/`map` iterator object falls back to object identity, and the two
objects are distinct, so it is always unequal. -/
def FileIds.pyNe : FileIds → FileIds → Bool
  | .pylist xs, .pylist ys => xs != ys
  | _, _ => true

/-- `get_file_ids(dir, id_list)`: with no id list, filter the directory
listing to names ending in `'.lab'` and strip that suffix (lazily); with an
id list, load the ids from that file. -/
def get_file_ids (env : Env) (dir : String) (id_list : Option String) : FileIds :=
  match id_list with
  | none =>
    .pyiter (((env.listdir dir).filter (fun f => pyEndsWith f ".lab")).map pyStripLab)
  | some p => .pylist (load_txt env p)

/-- A value written to disk: a combined-mode protobuffer record with its five
fields, a plain-text number (`file_io.save_txt`), or a raw binary blob
(`file_io.save_bin`). -/
inductive Value
  | proto (lab : Blob) (duration : Nat) (f0 mgc bap : Blob)
  | txt (duration : Nat)
  | bin (b : Blob)
deriving DecidableEq

/-- An observable filesystem event: reading an input file or writing an
output file. -/
inductive Event
  | read (path : String)
  | write (path : String) (v : Value)
deriving DecidableEq

/-- Run a per-id step over the resolved ids in order.  A step returns the
events it performed together with an optional uncaught error; the first
error halts the iteration (Python's `for` loop with no `try`). -/
def runIds (step : String → List Event × Option String) : List String → List Event × Option String
  | [] => ([], none)
  | i :: rest =>
    match step i with
    | (es, some e) => (es, some e)
    | (es, none) =>
      let r := runIds step rest
      (es ++ r.1, r.2)

/-- The loop body of `process_files`: load the label, load the wave, binarise,
count frames, extract features, and save the five-field record to
`{out_dir}/{id}.proto`. -/
def combinedStep (env : Env) (lab_dir wav_dir out_dir : String) (state_level : Bool)
    (file_id : String) : List Event × Option String :=
  let lab_path := pathJoin lab_dir (file_id ++ ".lab")
  match env.loadLabel lab_path state_level with
  | .error e => ([.read lab_path], some e)
  | .ok label =>
    let wav_path := pathJoin wav_dir (file_id ++ ".wav")
    match env.loadWav wav_path with
    | .error e => ([.read lab_path, .read wav_path], some e)
    | .ok wav =>
      match label.binarise "" with
      | .error e => ([.read lab_path, .read wav_path], some e)
      | .ok binary_label =>
        match label.count_frames with
        | .error e => ([.read lab_path, .read wav_path], some e)
        | .ok duration =>
          match wav.extract_features with
          | .error e => ([.read lab_path, .read wav_path], some e)
          | .ok (f0, mgc, bap) =>
            let feature_path := pathJoin out_dir (file_id ++ ".proto")
            if env.writeOk feature_path then
              ([.read lab_path, .read wav_path,
                .write feature_path (.proto binary_label duration f0 mgc bap)], none)
            else ([.read lab_path, .read wav_path], some "save_proto failed")

/-- The `ValueError` message raised by `process_files` on mismatching ids. -/
def mismatchMsg : String :=
  "Please provide id_list, or ensure that wav_dir and lab_dir contain the same files."

/-- `process_files(lab_dir, wav_dir, id_list, out_dir, state_level)`: resolve
ids from both directories, raise `ValueError` if the two results compare
unequal under Python `!=`, otherwise process each id with `combinedStep`. -/
def process_files (env : Env) (lab_dir wav_dir : String) (id_list : Option String)
    (out_dir : String) (state_level : Bool) : List Event × Option String :=
  let file_ids := get_file_ids env lab_dir id_list
  let file_ids2 := get_file_ids env wav_dir id_list
  if file_ids.pyNe file_ids2 then ([], some mismatchMsg)
  else runIds (combinedStep env lab_dir wav_dir out_dir state_level) file_ids.toList

/-- The loop body of `process_lab_files`: load the label, count frames and
save the duration as text to `{out_dir}/{id}.dur`, then binarise and save the
binary label to `{out_dir}/{id}.lab`. -/
def labStep (env : Env) (lab_dir out_dir : String) (state_level : Bool)
    (file_id : String) : List Event × Option String :=
  let lab_path := pathJoin lab_dir (file_id ++ ".lab")
  match env.loadLabel lab_path state_level with
  | .error e => ([.read lab_path], some e)
  | .ok label =>
    match label.count_frames with
    | .error e => ([.read lab_path], some e)
    | .ok duration =>
      let duration_path := pathJoin out_dir (file_id ++ ".dur")
      if env.writeOk duration_path then
        match label.binarise "" with
        | .error e => ([.read lab_path, .write duration_path (.txt duration)], some e)
        | .ok binary_label =>
          let binary_label_path := pathJoin out_dir (file_id ++ ".lab")
          if env.writeOk binary_label_path then
            ([.read lab_path, .write duration_path (.txt duration),
              .write binary_label_path (.bin binary_label)], none)
          else ([.read lab_path, .write duration_path (.txt duration)], some "save_bin failed")
      else ([.read lab_path], some "save_txt failed")

/-- `process_lab_files(lab_dir, id_list, out_dir, state_level)`. -/
def process_lab_files (env : Env) (lab_dir : String) (id_list : Option String)
    (out_dir : String) (state_level : Bool) : List Event × Option String :=
  runIds (labStep env lab_dir out_dir state_level) (get_file_ids env lab_dir id_list).toList

/-- The loop body of `process_wav_files`: load the wave, extract the
`(f0, mgc, bap)` features, and save each to its own binary file
(`feature_path = os.path.join(out_dir, file_id)` then `feature_path + ".f0"`
and so on). -/
def wavStep (env : Env) (wav_dir out_dir : String) (file_id : String) :
    List Event × Option String :=
  let wav_path := pathJoin wav_dir (file_id ++ ".wav")
  match env.loadWav wav_path with
  | .error e => ([.read wav_path], some e)
  | .ok wav =>
    match wav.extract_features with
    | .error e => ([.read wav_path], some e)
    | .ok (f0, mgc, bap) =>
      let feature_path := pathJoin out_dir file_id
      if env.writeOk (feature_path ++ ".f0") then
        if env.writeOk (feature_path ++ ".mgc") then
          if env.writeOk (feature_path ++ ".bap") then
            ([.read wav_path, .write (feature_path ++ ".f0") (.bin f0),
              .write (feature_path ++ ".mgc") (.bin mgc),
              .write (feature_path ++ ".bap") (.bin bap)], none)
          else ([.read wav_path, .write (feature_path ++ ".f0") (.bin f0),
                 .write (feature_path ++ ".mgc") (.bin mgc)], some "save_bin failed")
        else ([.read wav_path, .write (feature_path ++ ".f0") (.bin f0)], some "save_bin failed")
      else ([.read wav_path], some "save_bin failed")

/-- `process_wav_files(wav_dir, id_list, out_dir)`. -/
def process_wav_files (env : Env) (wav_dir : String) (id_list : Option String)
    (out_dir : String) : List Event × Option String :=
  runIds (wavStep env wav_dir out_dir) (get_file_ids env wav_dir id_list).toList

/-- The parsed command-line arguments of the script.  `lab_dir`, `wav_dir`
and `id_list` default to `None`. -/
structure Args where
  lab_dir : Option String
  wav_dir : Option String
  id_list : Option String
  out_dir : String
  state_level : Bool

/-- Python truthiness of an optional string argument: `None` and the empty
string are falsy. -/
def truthy : Option String → Bool
  | none => false
  | some s => s != ""

/-- The `__main__` dispatch: combined mode if both directories are truthy,
else label-only if the label directory is truthy, else waveform-only if the
waveform directory is truthy, else nothing. -/
def pyMain (env : Env) (args : Args) : List Event × Option String :=
  if truthy args.lab_dir && truthy args.wav_dir then
    process_files env (args.lab_dir.getD "") (args.wav_dir.getD "") args.id_list
      args.out_dir args.state_level
  else if truthy args.lab_dir then
    process_lab_files env (args.lab_dir.getD "") args.id_list args.out_dir args.state_level
  else if truthy args.wav_dir then
    process_wav_files env (args.wav_dir.getD "") args.id_list args.out_dir
  else ([], none)

/-- A concrete all-success environment: directory `L` holds two label files,
`W` holds two wave files, `V` holds the same label files as `L` in the
opposite order; id-list file `ids` holds the single id `p`, `xy` holds
`x` and `y`, `abc` holds `a`, `b`, `c`. -/
def L1 : Label := ⟨fun _ => .ok [1], .ok 7⟩

/-- A concrete waveform whose features are `([2], [3], [4])`. -/
def W1 : Wav := ⟨.ok ([2], [3], [4])⟩

/-- All-success environment (see `L1`). -/
def envH : Env :=
  ⟨fun d =>
      if d = "L" then ["a.lab", "b.lab"]
      else if d = "V" then ["b.lab", "a.lab"]
      else if d = "W" then ["a.wav", "b.wav"]
      else [],
   fun p =>
      if p = "ids" then "p\n"
      else if p = "xy" then "x\ny\n"
      else if p = "abc" then "a\nb\nc\n"
      else "",
   fun _ _ => .ok L1,
   fun _ => .ok W1,
   fun _ => true⟩

/-- Environment identical to `envH` except that loading the label
`L/b.lab` and the waveform `W/b.wav` fails. -/
def envF : Env :=
  { envH with
    loadLabel := fun p _ => if p = "L/b.lab" then .error "lab boom" else .ok L1,
    loadWav := fun p => if p = "W/b.wav" then .error "wav boom" else .ok W1 }

/-- If every id's step succeeds with trace `tr i`, the loop concatenates the
traces in order and reports no error. -/
theorem runIds_congr_ok (step : String → List Event × Option String)
    (tr : String → List Event) (ids : List String)
    (h : ∀ i ∈ ids, step i = (tr i, none)) :
    runIds step ids = (ids.flatMap tr, none) := by
  induction ids with
  | nil => rfl
  | cons a rest ih =>
    have ha : step a = (tr a, none) := h a (List.mem_cons_self a rest)
    have hr := ih (fun i hi => h i (List.mem_cons_of_mem a hi))
    simp [runIds, ha, hr]

/-- If every id before `x` succeeds and `x`'s step fails with `e`, the loop
stops at `x`: the trace is the successful prefix's events followed by `x`'s
partial events, the ids after `x` contribute nothing, and the error is `e`. -/
theorem runIds_append_fail (step : String → List Event × Option String)
    (pre : List String) (x : String) (post : List String) (e : String)
    (hpre : ∀ i ∈ pre, (step i).2 = none) (hx : (step x).2 = some e) :
    runIds step (pre ++ x :: post) =
      (pre.flatMap (fun i => (step i).1) ++ (step x).1, some e) := by
  induction pre with
  | nil =>
    cases hsx : step x with
    | mk es eo =>
      rw [hsx] at hx
      simp only at hx
      subst hx
      simp [runIds, hsx]
  | cons a rest ih =>
    have ha : (step a).2 = none := hpre a (List.mem_cons_self a rest)
    have hr := ih (fun i hi => hpre i (List.mem_cons_of_mem a hi))
    cases hsa : step a with
    | mk es eo =>
      rw [hsa] at ha
      simp only at ha
      subst ha
      simp [runIds, hsa, hr]

/-- Stripping the `.lab` suffix and re-appending it recovers the original
name whenever the name does end in `.lab`. -/
theorem pyStripLab_append (s : String) (h : pyEndsWith s ".lab" = true) :
    (pyStripLab s).data ++ (".lab" : String).data = s.data := by
  have hs : (".lab" : String).data <:+ s.data := of_decide_eq_true h
  obtain ⟨u, hu⟩ := hs
  have hlen : s.data.length - 4 = u.length := by
    rw [← hu]
    simp
  show s.data.take (s.data.length - 4) ++ _ = s.data
  rw [hlen, ← hu, List.take_left]

/-- `pyStripLab` is injective on names ending in `.lab`. -/
theorem pyStripLab_inj {s t : String} (hs : pyEndsWith s ".lab" = true)
    (ht : pyEndsWith t ".lab" = true) (h : pyStripLab s = pyStripLab t) : s = t := by
  have h1 := pyStripLab_append s hs
  have h2 := pyStripLab_append t ht
  have hd : s.data = t.data := by rw [← h1, ← h2, h]
  cases s
  cases t
  exact congrArg String.mk hd

/-- A name ending in `.wav` does not end in `.lab`. -/
theorem pyEndsWith_wav_not_lab {s : String} (h : pyEndsWith s ".wav" = true) :
    pyEndsWith s ".lab" = false := by
  cases hb : pyEndsWith s ".lab" with
  | false => rfl
  | true =>
    have h1 : (".wav" : String).data <:+ s.data := of_decide_eq_true h
    have h2 : (".lab" : String).data <:+ s.data := of_decide_eq_true hb
    obtain ⟨u, hu⟩ := h1
    obtain ⟨v, hv⟩ := h2
    have heq : u ++ (".wav" : String).data = v ++ (".lab" : String).data := hu.trans hv.symm
    have hlen : u.length = v.length := by
      have := congrArg List.length heq
      simp at this
      omega
    have : (".wav" : String).data = (".lab" : String).data := (List.append_inj heq hlen).2
    exact absurd this (by decide)

/-- Evaluation of `combinedStep` when every operation succeeds. -/
theorem combinedStep_ok (env : Env) (lab_dir wav_dir out_dir : String) (state_level : Bool)
    (file_id : String) (L : Label) (W : Wav) (bn : Blob) (cf : Nat) (F : Blob × Blob × Blob)
    (hL : env.loadLabel (pathJoin lab_dir (file_id ++ ".lab")) state_level = .ok L)
    (hW : env.loadWav (pathJoin wav_dir (file_id ++ ".wav")) = .ok W)
    (hbn : L.binarise "" = .ok bn)
    (hcf : L.count_frames = .ok cf)
    (hF : W.extract_features = .ok F)
    (hw : env.writeOk (pathJoin out_dir (file_id ++ ".proto")) = true) :
    combinedStep env lab_dir wav_dir out_dir state_level file_id =
      ([.read (pathJoin lab_dir (file_id ++ ".lab")),
        .read (pathJoin wav_dir (file_id ++ ".wav")),
        .write (pathJoin out_dir (file_id ++ ".proto"))
          (.proto bn cf F.1 F.2.1 F.2.2)], none) := by
  obtain ⟨f0, mgc, bap⟩ := F
  simp [combinedStep, hL, hW, hbn, hcf, hF, hw]

/-- Evaluation of `labStep` when every operation succeeds. -/
theorem labStep_ok (env : Env) (lab_dir out_dir : String) (state_level : Bool)
    (file_id : String) (L : Label) (bn : Blob) (cf : Nat)
    (hL : env.loadLabel (pathJoin lab_dir (file_id ++ ".lab")) state_level = .ok L)
    (hcf : L.count_frames = .ok cf)
    (hbn : L.binarise "" = .ok bn)
    (hw1 : env.writeOk (pathJoin out_dir (file_id ++ ".dur")) = true)
    (hw2 : env.writeOk (pathJoin out_dir (file_id ++ ".lab")) = true) :
    labStep env lab_dir out_dir state_level file_id =
      ([.read (pathJoin lab_dir (file_id ++ ".lab")),
        .write (pathJoin out_dir (file_id ++ ".dur")) (.txt cf),
        .write (pathJoin out_dir (file_id ++ ".lab")) (.bin bn)], none) := by
  simp [labStep, hL, hcf, hbn, hw1, hw2]

/-- Evaluation of `wavStep` when every operation succeeds. -/
theorem wavStep_ok (env : Env) (wav_dir out_dir : String)
    (file_id : String) (W : Wav) (F : Blob × Blob × Blob)
    (hW : env.loadWav (pathJoin wav_dir (file_id ++ ".wav")) = .ok W)
    (hF : W.extract_features = .ok F)
    (hw0 : env.writeOk (pathJoin out_dir file_id ++ ".f0") = true)
    (hw1 : env.writeOk (pathJoin out_dir file_id ++ ".mgc") = true)
    (hw2 : env.writeOk (pathJoin out_dir file_id ++ ".bap") = true) :
    wavStep env wav_dir out_dir file_id =
      ([.read (pathJoin wav_dir (file_id ++ ".wav")),
        .write (pathJoin out_dir file_id ++ ".f0") (.bin F.1),
        .write (pathJoin out_dir file_id ++ ".mgc") (.bin F.2.1),
        .write (pathJoin out_dir file_id ++ ".bap") (.bin F.2.2)], none) := by
  obtain ⟨f0, mgc, bap⟩ := F
  simp [wavStep, hW, hF, hw0, hw1, hw2]

/-- Claim C2: in combined mode, if the id sequence resolved from the label
directory and the id sequence resolved from the waveform directory are not
element-for-element equal as ordered sequences, the run aborts with the
descriptive `ValueError` before any label or waveform file is loaded and
before any output is written (the trace is empty). -/
theorem claim_C2_mismatch_aborts_early (env : Env) (lab_dir wav_dir : String)
    (idl : Option String) (out_dir : String) (state_level : Bool)
    (h : (get_file_ids env lab_dir idl).toList ≠ (get_file_ids env wav_dir idl).toList) :
    process_files env lab_dir wav_dir idl out_dir state_level = ([], some mismatchMsg) := by
  cases idl with
  | none => simp [process_files, get_file_ids, FileIds.pyNe]
  | some p =>
    simp [get_file_ids, FileIds.toList] at h

/-- Witness for claim C2: directories `L` and `V` hold the same label files
in opposite orders; the run aborts with the `ValueError` and an empty trace. -/
theorem claim_C2_witness :
    process_files envH "L" "V" none "O" false = ([], some mismatchMsg) :=
  claim_C2_mismatch_aborts_early envH "L" "V" none "O" false (by decide)

/-- Claim C3: without an id list, `get_file_ids` returns lazy `filter`/`map`
iterator objects, and `process_files` compares the two results with `!=`,
which distinct iterator objects always satisfy; so combined mode invoked
without an id list always raises the mismatch `ValueError`, for every pair of
directories — even two directories resolving to identical id sequences. -/
theorem claim_C3_no_id_list_always_raises (env : Env) (lab_dir wav_dir out_dir : String)
    (state_level : Bool) :
    (∃ xs, get_file_ids env lab_dir none = FileIds.pyiter xs) ∧
    (∃ ys, get_file_ids env wav_dir none = FileIds.pyiter ys) ∧
    process_files env lab_dir wav_dir none out_dir state_level = ([], some mismatchMsg) :=
  ⟨⟨_, rfl⟩, ⟨_, rfl⟩, rfl⟩

/-- Claim C4: with no id-list path, `get_file_ids` returns exactly the
directory entries ending in `.lab`, suffix stripped, in the listing's order;
it introduces no duplicates; and on a directory listing `[a.lab, b.lab]` it
returns exactly `[a, b]`. -/
theorem claim_C4_resolver_listing (env : Env) (dir : String) :
    (get_file_ids env dir none).toList
      = ((env.listdir dir).filter (fun f => pyEndsWith f ".lab")).map pyStripLab
    ∧ (((env.listdir dir).filter (fun f => pyEndsWith f ".lab")).Nodup →
        (get_file_ids env dir none).toList.Nodup)
    ∧ (env.listdir dir = ["a.lab", "b.lab"] →
        (get_file_ids env dir none).toList = ["a", "b"]) := by
  refine ⟨rfl, fun hnd => ?_, fun hld => ?_⟩
  · show (((env.listdir dir).filter (fun f => pyEndsWith f ".lab")).map pyStripLab).Nodup
    exact hnd.map_on (fun x hx y hy hxy =>
      pyStripLab_inj (List.mem_filter.mp hx).2 (List.mem_filter.mp hy).2 hxy)
  · show (((env.listdir dir).filter (fun f => pyEndsWith f ".lab")).map pyStripLab) = _
    rw [hld]
    decide

/-- Witness for claim C4: on the listing `[a.lab, b.lab]` of directory `L`,
the resolver yields exactly `[a, b]`, without duplicates. -/
theorem claim_C4_witness :
    (get_file_ids envH "L" none).toList = ["a", "b"]
    ∧ (get_file_ids envH "L" none).toList.Nodup :=
  ⟨(claim_C4_resolver_listing envH "L").2.2 (by decide),
   (claim_C4_resolver_listing envH "L").2.1 (by decide)⟩

/-- Claim C5: with an id-list path, `get_file_ids` returns the ids loaded
from that file in file order, identically for every `dir` argument (the
directory is never consulted); an id-list file containing `x` and `y` on
successive lines yields `[x, y]`. -/
theorem claim_C5_resolver_id_list (env : Env) (dir dir2 p : String) :
    (get_file_ids env dir (some p)).toList = load_txt env p
    ∧ get_file_ids env dir (some p) = get_file_ids env dir2 (some p)
    ∧ (env.fileContents p = "x\ny\n" →
        (get_file_ids env dir (some p)).toList = ["x", "y"]) := by
  refine ⟨rfl, rfl, fun h => ?_⟩
  show load_txt env p = _
  rw [load_txt, h]
  decide

/-- Witness for claim C5: the id-list file `xy` holds `x\ny\n`; the resolver
returns `[x, y]` for directory `L` and the same value for directory `W`. -/
theorem claim_C5_witness :
    (get_file_ids envH "L" (some "xy")).toList = ["x", "y"]
    ∧ get_file_ids envH "L" (some "xy") = get_file_ids envH "W" (some "xy") :=
  ⟨(claim_C5_resolver_id_list envH "L" "W" "xy").2.2 rfl,
   (claim_C5_resolver_id_list envH "L" "W" "xy").2.1⟩

/-- Claim C1: in combined mode with a validated id sequence, for every id the
program loads `{lab_dir}/{id}.lab` and `{wav_dir}/{id}.wav` and writes exactly
one record at `{out_dir}/{id}.proto` with exactly the five fields
`lab = Label.binarise('')`, `duration = Label.count_frames()`, and
`(f0, mgc, bap) = Wav.extract_features()`. -/
theorem claim_C1_combined_outputs (env : Env) (lab_dir wav_dir idp out_dir : String)
    (state_level : Bool)
    (L : String → Label) (W : String → Wav) (bn : String → Blob) (cf : String → Nat)
    (F : String → Blob × Blob × Blob)
    (hL : ∀ id ∈ load_txt env idp,
      env.loadLabel (pathJoin lab_dir (id ++ ".lab")) state_level = .ok (L id))
    (hW : ∀ id ∈ load_txt env idp,
      env.loadWav (pathJoin wav_dir (id ++ ".wav")) = .ok (W id))
    (hbn : ∀ id ∈ load_txt env idp, (L id).binarise "" = .ok (bn id))
    (hcf : ∀ id ∈ load_txt env idp, (L id).count_frames = .ok (cf id))
    (hF : ∀ id ∈ load_txt env idp, (W id).extract_features = .ok (F id))
    (hw : ∀ id ∈ load_txt env idp,
      env.writeOk (pathJoin out_dir (id ++ ".proto")) = true) :
    process_files env lab_dir wav_dir (some idp) out_dir state_level =
      ((load_txt env idp).flatMap (fun id =>
        [Event.read (pathJoin lab_dir (id ++ ".lab")),
         Event.read (pathJoin wav_dir (id ++ ".wav")),
         Event.write (pathJoin out_dir (id ++ ".proto"))
           (Value.proto (bn id) (cf id) (F id).1 (F id).2.1 (F id).2.2)]), none) := by
  have hstep : ∀ id ∈ load_txt env idp,
      combinedStep env lab_dir wav_dir out_dir state_level id =
        ([Event.read (pathJoin lab_dir (id ++ ".lab")),
          Event.read (pathJoin wav_dir (id ++ ".wav")),
          Event.write (pathJoin out_dir (id ++ ".proto"))
            (Value.proto (bn id) (cf id) (F id).1 (F id).2.1 (F id).2.2)], none) :=
    fun id hid => combinedStep_ok env lab_dir wav_dir out_dir state_level id (L id) (W id)
      (bn id) (cf id) (F id) (hL id hid) (hW id hid) (hbn id hid) (hcf id hid)
      (hF id hid) (hw id hid)
  have h1 : process_files env lab_dir wav_dir (some idp) out_dir state_level =
      runIds (combinedStep env lab_dir wav_dir out_dir state_level) (load_txt env idp) := by
    simp [process_files, get_file_ids, FileIds.pyNe, FileIds.toList]
  rw [h1]
  exact runIds_congr_ok _ _ _ hstep

/-- Witness for claim C1: one id `p`, all collaborator operations succeed;
exactly one `.proto` record is written, holding the five fields. -/
theorem claim_C1_witness :
    process_files envH "L2" "W2" (some "ids") "O" false =
      ([Event.read "L2/p.lab", Event.read "W2/p.wav",
        Event.write "O/p.proto" (Value.proto [1] 7 [2] [3] [4])], none) :=
  (claim_C1_combined_outputs envH "L2" "W2" "ids" "O" false
    (fun _ => L1) (fun _ => W1) (fun _ => [1]) (fun _ => 7) (fun _ => ([2], [3], [4]))
    (fun _ _ => rfl) (fun _ _ => rfl) (fun _ _ => rfl) (fun _ _ => rfl) (fun _ _ => rfl)
    (fun _ _ => rfl)).trans (by decide)

/-- Claim C6: in label-only mode, each resolved id produces exactly two
writes and nothing else — `{out_dir}/{id}.dur` with the frame count as text
first, then `{out_dir}/{id}.lab` with the binarised label as a binary blob. -/
theorem claim_C6_label_mode_outputs (env : Env) (lab_dir : String) (idl : Option String)
    (out_dir : String) (state_level : Bool)
    (L : String → Label) (bn : String → Blob) (cf : String → Nat)
    (hL : ∀ id ∈ (get_file_ids env lab_dir idl).toList,
      env.loadLabel (pathJoin lab_dir (id ++ ".lab")) state_level = .ok (L id))
    (hcf : ∀ id ∈ (get_file_ids env lab_dir idl).toList, (L id).count_frames = .ok (cf id))
    (hbn : ∀ id ∈ (get_file_ids env lab_dir idl).toList, (L id).binarise "" = .ok (bn id))
    (hw1 : ∀ id ∈ (get_file_ids env lab_dir idl).toList,
      env.writeOk (pathJoin out_dir (id ++ ".dur")) = true)
    (hw2 : ∀ id ∈ (get_file_ids env lab_dir idl).toList,
      env.writeOk (pathJoin out_dir (id ++ ".lab")) = true) :
    process_lab_files env lab_dir idl out_dir state_level =
      ((get_file_ids env lab_dir idl).toList.flatMap (fun id =>
        [Event.read (pathJoin lab_dir (id ++ ".lab")),
         Event.write (pathJoin out_dir (id ++ ".dur")) (Value.txt (cf id)),
         Event.write (pathJoin out_dir (id ++ ".lab")) (Value.bin (bn id))]), none) :=
  runIds_congr_ok _ _ _ (fun id hid =>
    labStep_ok env lab_dir out_dir state_level id (L id) (bn id) (cf id)
      (hL id hid) (hcf id hid) (hbn id hid) (hw1 id hid) (hw2 id hid))

/-- Witness for claim C6: one id `p`; exactly `O/p.dur` (text duration) then
`O/p.lab` (binary blob) are written. -/
theorem claim_C6_witness :
    process_lab_files envH "L" (some "ids") "O" false =
      ([Event.read "L/p.lab", Event.write "O/p.dur" (Value.txt 7),
        Event.write "O/p.lab" (Value.bin [1])], none) :=
  (claim_C6_label_mode_outputs envH "L" (some "ids") "O" false
    (fun _ => L1) (fun _ => [1]) (fun _ => 7)
    (fun _ _ => rfl) (fun _ _ => rfl) (fun _ _ => rfl) (fun _ _ => rfl)
    (fun _ _ => rfl)).trans (by decide)

/-- Claim C7: in waveform-only mode, each resolved id produces exactly three
writes and nothing else — `{out_dir}/{id}.f0`, `{out_dir}/{id}.mgc`,
`{out_dir}/{id}.bap`, each a binary file holding the corresponding extracted
feature sequence; no `.proto`, `.dur` or binarised-label file. -/
theorem claim_C7_wav_mode_outputs (env : Env) (wav_dir : String) (idl : Option String)
    (out_dir : String)
    (W : String → Wav) (F : String → Blob × Blob × Blob)
    (hW : ∀ id ∈ (get_file_ids env wav_dir idl).toList,
      env.loadWav (pathJoin wav_dir (id ++ ".wav")) = .ok (W id))
    (hF : ∀ id ∈ (get_file_ids env wav_dir idl).toList,
      (W id).extract_features = .ok (F id))
    (hw0 : ∀ id ∈ (get_file_ids env wav_dir idl).toList,
      env.writeOk (pathJoin out_dir id ++ ".f0") = true)
    (hw1 : ∀ id ∈ (get_file_ids env wav_dir idl).toList,
      env.writeOk (pathJoin out_dir id ++ ".mgc") = true)
    (hw2 : ∀ id ∈ (get_file_ids env wav_dir idl).toList,
      env.writeOk (pathJoin out_dir id ++ ".bap") = true) :
    process_wav_files env wav_dir idl out_dir =
      ((get_file_ids env wav_dir idl).toList.flatMap (fun id =>
        [Event.read (pathJoin wav_dir (id ++ ".wav")),
         Event.write (pathJoin out_dir id ++ ".f0") (Value.bin (F id).1),
         Event.write (pathJoin out_dir id ++ ".mgc") (Value.bin (F id).2.1),
         Event.write (pathJoin out_dir id ++ ".bap") (Value.bin (F id).2.2)]), none) :=
  runIds_congr_ok _ _ _ (fun id hid =>
    wavStep_ok env wav_dir out_dir id (W id) (F id)
      (hW id hid) (hF id hid) (hw0 id hid) (hw1 id hid) (hw2 id hid))

/-- Witness for claim C7: one id `p`; exactly `O/p.f0`, `O/p.mgc`, `O/p.bap`
are written, holding the three extracted feature sequences. -/
theorem claim_C7_witness :
    process_wav_files envH "W2" (some "ids") "O" =
      ([Event.read "W2/p.wav", Event.write "O/p.f0" (Value.bin [2]),
        Event.write "O/p.mgc" (Value.bin [3]),
        Event.write "O/p.bap" (Value.bin [4])], none) :=
  (claim_C7_wav_mode_outputs envH "W2" (some "ids") "O"
    (fun _ => W1) (fun _ => ([2], [3], [4]))
    (fun _ _ => rfl) (fun _ _ => rfl) (fun _ _ => rfl) (fun _ _ => rfl)
    (fun _ _ => rfl)).trans (by decide)

/-- Claim C8: the dispatcher runs exactly one processing mode per invocation,
by Python truthiness of the two directory arguments, in priority order:
combined if both, else label-only if the label directory, else waveform-only
if the waveform directory; with neither, nothing runs, no file is written and
no error is raised. -/
theorem claim_C8_dispatch (env : Env) (args : Args) :
    (truthy args.lab_dir = true → truthy args.wav_dir = true →
      pyMain env args = process_files env (args.lab_dir.getD "") (args.wav_dir.getD "")
        args.id_list args.out_dir args.state_level)
    ∧ (truthy args.lab_dir = true → truthy args.wav_dir = false →
      pyMain env args = process_lab_files env (args.lab_dir.getD "") args.id_list
        args.out_dir args.state_level)
    ∧ (truthy args.lab_dir = false → truthy args.wav_dir = true →
      pyMain env args = process_wav_files env (args.wav_dir.getD "") args.id_list
        args.out_dir)
    ∧ (truthy args.lab_dir = false → truthy args.wav_dir = false →
      pyMain env args = ([], none)) := by
  refine ⟨fun h1 h2 => ?_, fun h1 h2 => ?_, fun h1 h2 => ?_, fun h1 h2 => ?_⟩
  all_goals simp [pyMain, h1, h2]

/-- Witness for claim C8: the four dispatch cases at concrete arguments; in
particular with neither directory supplied the run is a no-op without error. -/
theorem claim_C8_witness :
    pyMain envH ⟨some "L", some "W", none, "O", false⟩ =
      process_files envH "L" "W" none "O" false
    ∧ pyMain envH ⟨some "L", none, some "ids", "O", false⟩ =
      process_lab_files envH "L" (some "ids") "O" false
    ∧ pyMain envH ⟨none, some "W", some "ids", "O", false⟩ =
      process_wav_files envH "W" (some "ids") "O"
    ∧ pyMain envH ⟨none, none, none, "O", false⟩ = ([], none) :=
  ⟨(claim_C8_dispatch envH ⟨some "L", some "W", none, "O", false⟩).1 rfl rfl,
   (claim_C8_dispatch envH ⟨some "L", none, some "ids", "O", false⟩).2.1 rfl rfl,
   (claim_C8_dispatch envH ⟨none, some "W", some "ids", "O", false⟩).2.2.1 rfl rfl,
   (claim_C8_dispatch envH ⟨none, none, none, "O", false⟩).2.2.2 rfl rfl⟩

/-- Claim C9: in every mode, a failing load/extract/write step for the id at
some position halts the batch there: the error propagates uncaught, ids after
that position produce no events, the events of the ids before it are kept,
and so are the current id's events from before the failing step. -/
theorem claim_C9_failure_halts (env : Env) (lab_dir wav_dir out_dir : String)
    (idl : Option String) (state_level : Bool) :
    (∀ e pre x post,
      (get_file_ids env lab_dir idl).toList = pre ++ x :: post →
      (∀ i ∈ pre, (labStep env lab_dir out_dir state_level i).2 = none) →
      (labStep env lab_dir out_dir state_level x).2 = some e →
      process_lab_files env lab_dir idl out_dir state_level =
        (pre.flatMap (fun i => (labStep env lab_dir out_dir state_level i).1) ++
          (labStep env lab_dir out_dir state_level x).1, some e))
    ∧ (∀ e pre x post,
      (get_file_ids env wav_dir idl).toList = pre ++ x :: post →
      (∀ i ∈ pre, (wavStep env wav_dir out_dir i).2 = none) →
      (wavStep env wav_dir out_dir x).2 = some e →
      process_wav_files env wav_dir idl out_dir =
        (pre.flatMap (fun i => (wavStep env wav_dir out_dir i).1) ++
          (wavStep env wav_dir out_dir x).1, some e))
    ∧ (∀ e pre x post,
      (get_file_ids env lab_dir idl).pyNe (get_file_ids env wav_dir idl) = false →
      (get_file_ids env lab_dir idl).toList = pre ++ x :: post →
      (∀ i ∈ pre, (combinedStep env lab_dir wav_dir out_dir state_level i).2 = none) →
      (combinedStep env lab_dir wav_dir out_dir state_level x).2 = some e →
      process_files env lab_dir wav_dir idl out_dir state_level =
        (pre.flatMap (fun i => (combinedStep env lab_dir wav_dir out_dir state_level i).1) ++
          (combinedStep env lab_dir wav_dir out_dir state_level x).1, some e)) := by
  refine ⟨fun e pre x post hlist hpre hx => ?_, fun e pre x post hlist hpre hx => ?_,
    fun e pre x post hne hlist hpre hx => ?_⟩
  · rw [process_lab_files, hlist]
    exact runIds_append_fail _ pre x post e hpre hx
  · rw [process_wav_files, hlist]
    exact runIds_append_fail _ pre x post e hpre hx
  · rw [process_files]
    simp only [hne, Bool.false_eq_true, if_false]
    rw [hlist]
    exact runIds_append_fail _ pre x post e hpre hx

/-- Witness for claim C9: ids `[a, b, c]`; in `envF` loading `L/b.lab` and
`W/b.wav` fails.  In each mode the batch halts at `b`: `a`'s outputs are on
disk, `c` is never processed, and the error propagates. -/
theorem claim_C9_witness :
    process_lab_files envF "L" (some "abc") "O" false =
      ([Event.read "L/a.lab", Event.write "O/a.dur" (Value.txt 7),
        Event.write "O/a.lab" (Value.bin [1]), Event.read "L/b.lab"], some "lab boom")
    ∧ process_wav_files envF "W" (some "abc") "O" =
      ([Event.read "W/a.wav", Event.write "O/a.f0" (Value.bin [2]),
        Event.write "O/a.mgc" (Value.bin [3]), Event.write "O/a.bap" (Value.bin [4]),
        Event.read "W/b.wav"], some "wav boom")
    ∧ process_files envF "L" "W" (some "abc") "O" false =
      ([Event.read "L/a.lab", Event.read "W/a.wav",
        Event.write "O/a.proto" (Value.proto [1] 7 [2] [3] [4]),
        Event.read "L/b.lab"], some "lab boom") :=
  ⟨((claim_C9_failure_halts envF "L" "W" "O" (some "abc") false).1
      "lab boom" ["a"] "b" ["c"] (by decide) (by decide) (by decide)).trans (by decide),
   ((claim_C9_failure_halts envF "L" "W" "O" (some "abc") false).2.1
      "wav boom" ["a"] "b" ["c"] (by decide) (by decide) (by decide)).trans (by decide),
   ((claim_C9_failure_halts envF "L" "W" "O" (some "abc") false).2.2
      "lab boom" ["a"] "b" ["c"] (by decide) (by decide) (by decide) (by decide)).trans
     (by decide)⟩

/-- Claim C10: `get_file_ids` filters every directory listing by the `.lab`
suffix; a waveform directory holding only `.wav` files therefore resolves to
an empty id sequence in waveform-only mode without an id list, and the run
performs no reads and no writes. -/
theorem claim_C10_wav_dir_resolves_empty (env : Env) (wav_dir out_dir : String)
    (h : ∀ f ∈ env.listdir wav_dir, pyEndsWith f ".wav" = true) :
    get_file_ids env wav_dir none = FileIds.pyiter []
    ∧ process_wav_files env wav_dir none out_dir = ([], none) := by
  have hfilter : (env.listdir wav_dir).filter (fun f => pyEndsWith f ".lab") = [] :=
    List.filter_eq_nil_iff.mpr (fun a ha => by
      simp [pyEndsWith_wav_not_lab (h a ha)])
  constructor
  · simp [get_file_ids, hfilter]
  · simp [process_wav_files, get_file_ids, hfilter, FileIds.toList, runIds]

/-- Witness for claim C10: directory `W` lists `[a.wav, b.wav]`; the resolver
yields no ids and waveform-only mode writes nothing. -/
theorem claim_C10_witness :
    get_file_ids envH "W" none = FileIds.pyiter []
    ∧ process_wav_files envH "W" none "O" = ([], none) :=
  claim_C10_wav_dir_resolves_empty envH "W" "O" (by decide)
